import Mathlib

set_option maxRecDepth 8000

/-!
Shallow embedding of `src/formats/jpeg.rs` from the `immeta` crate: a JPEG
metadata decoder (segment scanner, embedded Exif/TIFF directory decoder,
typed tag accessors, metadata assembly), together with theorems checking the
natural-language specification against it.

Bytes are modelled as `Nat` (each in `0..255` on real inputs); machine
arithmetic that can wrap (`u16` subtraction, `as i32` casts) is made explicit
with `% 2 ^ w` computations.  Fallible Rust code returning
`types::Result<T>` is modelled with `Except Err`.
-/

deriving instance DecidableEq for Except

namespace Immeta

/-- Errors of the crate's `types::Result`, as used by `jpeg.rs`:
`invalid_format!` and `unexpected_eof!` carry a message.  Plain `try!` on an
io/byteorder error at end of input is also an eof-style failure and is
modelled as `unexpectedEof "io"`. -/
inductive Err where
  | invalidFormat (msg : String)
  | unexpectedEof (msg : String)
deriving DecidableEq

/-- Byte assembly of `read_u16` (`byteorder` crate): two bytes in stream order,
interpreted little- or big-endian. -/
def u16val (bo : Bool) (b0 b1 : Nat) : Nat :=
  if bo then b0 + 256 * b1 else 256 * b0 + b1

/-- Byte assembly of `read_u32`: four bytes in stream order. -/
def u32val (bo : Bool) (b0 b1 b2 b3 : Nat) : Nat :=
  if bo then b0 + 256 * b1 + 65536 * b2 + 16777216 * b3
  else 16777216 * b0 + 65536 * b1 + 256 * b2 + b3

/-- The `enum ByteOrder`; `true` is `LittleEndian`, via the wrapper below. -/
inductive ByteOrder where
  | bigEndian
  | littleEndian
deriving DecidableEq

/-- Dispatch of `read_u16`/`read_u32` on a `ByteOrder` value. -/
def ByteOrder.isLE : ByteOrder → Bool
  | .bigEndian => false
  | .littleEndian => true

/-- Model of `std::io::Cursor<Vec<u8>>`: a byte buffer plus a read position. -/
structure Cursor where
  data : List Nat
  pos : Nat
deriving DecidableEq

/-- The bytes remaining to be read from a cursor. -/
def Cursor.rem (c : Cursor) : List Nat := c.data.drop c.pos

/-- The first `n` bytes of a list, or `none` when fewer than `n` remain. -/
def takeExact : Nat → List Nat → Option (List Nat)
  | 0, _ => some []
  | _ + 1, [] => none
  | n + 1, b :: rest =>
    match takeExact n rest with
    | some bs => some (b :: bs)
    | none => none

/-- An exact-length read (`read_u8`/`read_u16`/`read_u32` building block):
`none` when fewer than `n` bytes remain (io `UnexpectedEof`). -/
def Cursor.readBytes (c : Cursor) (n : Nat) : Option (List Nat × Cursor) :=
  match takeExact n c.rem with
  | some bs => some (bs, ⟨c.data, c.pos + n⟩)
  | none => none

/-- Model of `r.take(n).read_to_end(&mut buf)`: reads *up to* `n` bytes and never
fails; a short read at end of input is silent. -/
def Cursor.takeReadToEnd (c : Cursor) (n : Nat) : List Nat × Cursor :=
  let got := c.rem.take n
  (got, ⟨c.data, c.pos + got.length⟩)

/-- Model of `read_u8` on a cursor. -/
def Cursor.readU8 (c : Cursor) : Option (Nat × Cursor) :=
  match c.rem with
  | [] => none
  | b :: _ => some (b, ⟨c.data, c.pos + 1⟩)

/-- Model of `read_u16` on a cursor with a byte order. -/
def readU16 (bo : ByteOrder) (c : Cursor) : Option (Nat × Cursor) :=
  match c.readBytes 2 with
  | some ([b0, b1], c2) => some (u16val bo.isLE b0 b1, c2)
  | _ => none

/-- Model of `read_u32` on a cursor with a byte order. -/
def readU32 (bo : ByteOrder) (c : Cursor) : Option (Nat × Cursor) :=
  match c.readBytes 4 with
  | some ([b0, b1, b2, b3], c2) => some (u32val bo.isLE b0 b1 b2 b3, c2)
  | _ => none

/-- Model of `try_if_eof!(expr, msg)`: turn an eof-`none` into `unexpected_eof!(msg)`. -/
def orEof (o : Option α) (msg : String) : Except Err α :=
  match o with
  | some a => .ok a
  | none => .error (.unexpectedEof msg)

/-- Is `b` a UTF-8 continuation byte (`0x80..=0xBF`)? -/
def utf8Cont (b : Nat) : Bool := 128 ≤ b && b ≤ 191

/-- UTF-8 decoding with the validation rules of Rust's `String::from_utf8`
(well-formed sequences only: no overlongs, no surrogates, max U+10FFFF);
`none` on invalid input. -/
def utf8Decode : List Nat → Option (List Char)
  | [] => some []
  | b :: rest =>
    if b < 128 then
      (utf8Decode rest).map (fun cs => Char.ofNat b :: cs)
    else if 194 ≤ b && b ≤ 223 then
      match rest with
      | b1 :: rest2 =>
        if utf8Cont b1 then
          (utf8Decode rest2).map (fun cs => Char.ofNat ((b - 192) * 64 + (b1 - 128)) :: cs)
        else none
      | [] => none
    else if 224 ≤ b && b ≤ 239 then
      match rest with
      | b1 :: b2 :: rest2 =>
        if (if b = 224 then 160 ≤ b1 && b1 ≤ 191
            else if b = 237 then 128 ≤ b1 && b1 ≤ 159
            else utf8Cont b1) && utf8Cont b2 then
          (utf8Decode rest2).map
            (fun cs => Char.ofNat ((b - 224) * 4096 + (b1 - 128) * 64 + (b2 - 128)) :: cs)
        else none
      | _ => none
    else if 240 ≤ b && b ≤ 244 then
      match rest with
      | b1 :: b2 :: b3 :: rest2 =>
        if (if b = 240 then 144 ≤ b1 && b1 ≤ 191
            else if b = 244 then 128 ≤ b1 && b1 ≤ 143
            else utf8Cont b1) && utf8Cont b2 && utf8Cont b3 then
          (utf8Decode rest2).map
            (fun cs => Char.ofNat
              ((b - 240) * 262144 + (b1 - 128) * 4096 + (b2 - 128) * 64 + (b3 - 128)) :: cs)
        else none
      | _ => none
    else none

/-- The `enum Orientation`. -/
inductive Orientation where
  | normal
  | mirrorHorizontal
  | rotate180
  | flipVertical
  | transpose
  | rotate90
  | transverse
  | rotate270
  | unspecified
deriving DecidableEq

/-- Model of `Orientation::new`: the fixed Exif orientation-code table. -/
def Orientation.new (orientation : Nat) : Orientation :=
  match orientation with
  | 1 => .normal
  | 2 => .mirrorHorizontal
  | 3 => .rotate180
  | 4 => .flipVertical
  | 5 => .transpose
  | 6 => .rotate90
  | 7 => .transverse
  | 8 => .rotate270
  | _ => .unspecified

/-- The `enum TagDatatype`. -/
inductive TagDatatype where
  | byte
  | ascii
  | short
  | long
  | rational
  | undefined
  | signedLong
  | signedRational
deriving DecidableEq

/-- Model of `TagDatatype::new`: decode a datatype code, `InvalidFormat` otherwise. -/
def TagDatatype.new (datatype : Nat) : Except Err TagDatatype :=
  match datatype with
  | 1 => .ok .byte
  | 2 => .ok .ascii
  | 3 => .ok .short
  | 4 => .ok .long
  | 5 => .ok .rational
  | 7 => .ok .undefined
  | 9 => .ok .signedLong
  | 10 => .ok .signedRational
  | _ => .error (.invalidFormat ("invalid tag datatype: " ++ toString datatype))

/-- Model of `TagDatatype::len`: per-unit byte size. -/
def TagDatatype.len : TagDatatype → Nat
  | .byte => 1
  | .ascii => 1
  | .short => 2
  | .long => 4
  | .rational => 8
  | .undefined => 1
  | .signedLong => 4
  | .signedRational => 8

/-- The `struct Tag`. -/
structure Tag where
  id : Nat
  datatype : TagDatatype
  data : List Nat
  byte_order : ByteOrder
deriving DecidableEq

/-- Model of `Tag::get_short`: only a `Short` of raw length exactly 2 decodes, using
the tag's recorded byte order. -/
def Tag.get_short (t : Tag) : Except Err Nat :=
  match t.datatype, t.data with
  | .short, [b0, b1] => .ok (u16val t.byte_order.isLE b0 b1)
  | _, _ => .error (.invalidFormat "tag has invalid datatype or count")

/-- Model of `Tag::get_ascii`: clone the data, `pop` the trailing byte (a no-op on
empty data — `Vec::pop` cannot underflow), then require datatype `Ascii` and
valid UTF-8. -/
def Tag.get_ascii (t : Tag) : Except Err String :=
  let new_data := t.data.dropLast
  match t.datatype with
  | .ascii =>
    match utf8Decode new_data with
    | some cs => .ok ⟨cs⟩
    | none => .error (.invalidFormat "invalid string")
  | _ => .error (.invalidFormat "tag has invalid datatype")

/-- A deferred out-of-line entry: data-area offset mapped to
`(tag id, datatype, count)`, as stored in the `data_offsets` `HashMap`. -/
abbrev Deferred := Nat × Nat × TagDatatype × Nat

/-- Model of `HashMap::insert` on the `data_offsets` map: an insert at an existing
key replaces the stored value. -/
def insertOffset (m : List Deferred) (k : Nat) (v : Nat × TagDatatype × Nat) :
    List Deferred :=
  m.filter (fun p => p.1 != k) ++ [(k, v)]

/-- The `sorted_data_offsets` list: the map's pairs sorted by ascending offset
(`sort_by` with `offset_a.cmp(offset_b)`; keys are unique after the map). -/
def sortByKey (m : List Deferred) : List Deferred :=
  List.insertionSort (fun a b => a.1 ≤ b.1) m

/-- A `u32` or `usize` value cast `as i32` (Rust `as` truncates to the low
32 bits, then reinterprets the sign bit). -/
def i32ofNat (n : Nat) : Int :=
  if n % 4294967296 < 2147483648 then (n % 4294967296 : Nat)
  else (n % 4294967296 : Nat) - 4294967296

/-- Subtraction on `i32` with the wrapping semantics of release builds
(overflow-checked builds would panic instead; no claim exercises that
corner). -/
def i32sub (a b : Int) : Int := (a - b + 2147483648) % 4294967296 - 2147483648

/-- First pass of `Tag::load_all`: read `n` 12-byte directory entries,
storing small values inline (read the 4-byte slot, then `truncate` to
`type_len * count`) and recording large ones in the offset map. -/
def readEntries (bo : ByteOrder) : Nat → Cursor → Nat → List Tag → List Deferred →
    Except Err (List Tag × List Deferred × Nat × Cursor)
  | 0, c, off, fields, dmap => .ok (fields, dmap, off, c)
  | n + 1, c, off, fields, dmap =>
    match readU16 bo c with
    | none => .error (.unexpectedEof "while reading tag")
    | some (tag_id, c) =>
      match readU16 bo c with
      | none => .error (.unexpectedEof "while reading tag_type")
      | some (dtcode, c) =>
        match TagDatatype.new dtcode with
        | .error e => .error e
        | .ok tag_datatype =>
          match readU32 bo c with
          | none => .error (.unexpectedEof "while reading count_2")
          | some (count_2, c) =>
            if tag_datatype.len * count_2 > 4 then
              match readU32 bo c with
              | none => .error (.unexpectedEof "io")
              | some (doff, c) =>
                readEntries bo n c (off + 12) fields
                  (insertOffset dmap doff (tag_id, tag_datatype, count_2))
            else
              let p := c.takeReadToEnd 4
              readEntries bo n p.2 (off + 12)
                (fields ++ [⟨tag_id, tag_datatype, p.1.take (tag_datatype.len * count_2), bo⟩])
                dmap

/-- Second pass of `Tag::load_all`: walk the offset-sorted deferred entries
with the running `offset` cursor.  `empty_space = data_offset as i32 -
offset as i32`; a positive gap is skipped byte by byte with `read_u8`
(eof there is a plain io error), a negative gap is
`invalid_format!("overrun")`, then `take(data_len).read_to_end` reads the
value (silently short at end of input) and `offset += data_len`. -/
def resolveDeferred (bo : ByteOrder) : List Deferred → Cursor → Nat → List Tag →
    Except Err (List Tag × Nat × Cursor)
  | [], c, off, fields => .ok (fields, off, c)
  | (data_offset, tag, tag_datatype, count) :: rest, c, off, fields =>
    let empty_space := i32sub (i32ofNat data_offset) (i32ofNat off)
    if 0 < empty_space then
      match c.readBytes empty_space.toNat with
      | none => .error (.unexpectedEof "io")
      | some (_, c2) =>
        let data_len := tag_datatype.len * count
        let p := c2.takeReadToEnd data_len
        resolveDeferred bo rest p.2 (off + empty_space.toNat + data_len)
          (fields ++ [⟨tag, tag_datatype, p.1, bo⟩])
    else if empty_space < 0 then .error (.invalidFormat "overrun")
    else
      let data_len := tag_datatype.len * count
      let p := c.takeReadToEnd data_len
      resolveDeferred bo rest p.2 (off + data_len) (fields ++ [⟨tag, tag_datatype, p.1, bo⟩])

/-- Model of `Tag::load_all`: entry count, first pass over the directory, trailing
4-byte next-IFD offset (read but not followed), then deferred resolution in
ascending offset order.  Returns the fields plus the final `offset` and
cursor (the `&mut` out-parameters). -/
def Tag.load_all (c : Cursor) (offset : Nat) (byte_order : ByteOrder) :
    Except Err (List Tag × Nat × Cursor) :=
  match readU16 byte_order c with
  | none => .error (.unexpectedEof "while reading num_fields")
  | some (num_fields, c) =>
    match readEntries byte_order num_fields c (offset + 2) [] [] with
    | .error e => .error e
    | .ok (fields, data_offsets, off2, c) =>
      match readU32 byte_order c with
      | none => .error (.unexpectedEof "while reading first_ifd_offset")
      | some (_first_ifd_offset, c) =>
        resolveDeferred byte_order (sortByKey data_offsets) c (off2 + 4) fields

/-- The `struct TiffHeader`. -/
structure TiffHeader where
  byte_order : ByteOrder
  zeroth_ifd_offset : Nat
deriving DecidableEq

/-- Model of `TiffHeader::load`: order marker read little-endian (`0x4949` → little,
`0x4d4d` → big, else `InvalidFormat`), then, in the selected order, the
magic (must be 42; the zeroth-IFD offset is read before the magic check). -/
def TiffHeader.load (c : Cursor) : Except Err (TiffHeader × Cursor) :=
  match readU16 .littleEndian c with
  | none => .error (.unexpectedEof "while reading byte order")
  | some (byte_order_id, c) =>
    match (if byte_order_id = 0x4949 then .ok ByteOrder.littleEndian
           else if byte_order_id = 0x4d4d then .ok ByteOrder.bigEndian
           else .error (Err.invalidFormat
             ("unknown byte order id: " ++ toString byte_order_id)) :
           Except Err ByteOrder) with
    | .error e => .error e
    | .ok byte_order =>
      match readU16 byte_order c with
      | none => .error (.unexpectedEof "while reading tiff id")
      | some (tiff_id, c) =>
        match readU32 byte_order c with
        | none => .error (.unexpectedEof "while reading zeroth IFD offset")
        | some (zeroth_ifd_offset, c) =>
          if tiff_id = 42 then .ok (⟨byte_order, zeroth_ifd_offset⟩, c)
          else .error (.invalidFormat ("unknown tiff id: " ++ toString tiff_id))

/-- The `struct ExifSection`. -/
structure ExifSection where
  zeroth_ifd : List Tag
deriving DecidableEq

/-- Model of `ExifSection::load`: a 6-byte identifier that must equal `Exif\0\0`
(read with `read_exact_0`, modelled from the spec: `utils.rs` is not in
`src/`; it fills the buffer with up to 6 bytes and returns how many were
read, and a short read is `unexpected_eof!`), then the TIFF header, then
`Tag::load_all` starting at TIFF-relative offset 8. -/
def ExifSection.load (c : Cursor) : Except Err (ExifSection × Cursor) :=
  let identifier_code := c.rem.take 6
  if identifier_code.length ≠ 6 then
    .error (.unexpectedEof "while reading identifier code in exif segment")
  else if identifier_code ≠ [69, 120, 105, 102, 0, 0] then
    .error (.invalidFormat "not an exif segment")
  else
    match TiffHeader.load ⟨c.data, c.pos + 6⟩ with
    | .error e => .error e
    | .ok (tiff_header, c) =>
      match Tag.load_all c 8 tiff_header.byte_order with
      | .error e => .error e
      | .ok (fields, _, c) => .ok (⟨fields⟩, c)

/-- Modelled from the spec: `types::Dimensions` (`types.rs` is not under
`src/`); per the data model of the spec it is the mandatory width/height
pair, and `(w, h).into()` fills width from the first component. -/
structure Dimensions where
  width : Nat
  height : Nat
deriving DecidableEq

/-- The jpeg `struct Metadata`. -/
structure Metadata where
  dimensions : Dimensions
  orientation : Orientation
  date_time : Option String
  make : Option String
  model : Option String
deriving DecidableEq

/-- The observable outcome of `Metadata::load`: a value, a `types::Result`
error, or a Rust panic (`Option::unwrap` on `None`). -/
inductive Outcome where
  | ok (m : Metadata)
  | error (e : Err)
  | panicked
deriving DecidableEq

/-- The `0xC0`/`0xC2` arm: skip one precision byte from the segment, read
height then width as big-endian `u16` (eof on the segment is fatal here:
these are `try_if_eof!` in the main loop); returns `(w, h)` as stored into
`dimensions`. -/
def sofDims : List Nat → Except Err (Nat × Nat)
  | [] => .error (.unexpectedEof "when skipping to dimensions data")
  | [_] => .error (.unexpectedEof "when reading height")
  | [_, _] => .error (.unexpectedEof "when reading height")
  | [_, _, _] => .error (.unexpectedEof "when reading width")
  | [_, _, _, _] => .error (.unexpectedEof "when reading width")
  | _ :: h1 :: h2 :: w1 :: w2 :: _ =>
    .ok (u16val false w1 w2, u16val false h1 h2)

/-- Modelled from the spec: `utils::BufReadExt::skip_until` (`utils.rs` is
not under `src/`): consume bytes up to and including the first `delim`,
returning how many were consumed; a result of 0 means the stream ended
before `delim` was found. -/
def skipUntil (delim : Nat) : List Nat → Nat × List Nat
  | [] => (0, [])
  | b :: rest =>
    if b = delim then (1, rest)
    else
      let p := skipUntil delim rest
      (if p.1 = 0 then 0 else p.1 + 1, p.2)

/-- Wrapping `u16` subtraction of 2 from the on-wire segment length
(`size - 2` on a `u16`): wraps modulo `2 ^ 16` in release builds
(overflow-checked builds would panic when the wire length is 0 or 1). -/
def payloadSize (wire : Nat) : Nat := (wire + 65534) % 65536

/-- The metadata-assembly fold over the zeroth IFD (the `for ifd_field`
loop): recognized tag ids call the typed accessors through `try!`, so an
accessor failure propagates out of `Metadata::load` itself. -/
def assemble : List Tag → Orientation → Option String → Option String → Option String →
    Except Err (Orientation × Option String × Option String × Option String)
  | [], o, date_time, mk, md => .ok (o, date_time, mk, md)
  | f :: rest, o, date_time, mk, md =>
    if f.id = 0x112 then
      match f.get_short with
      | .error e => .error e
      | .ok s => assemble rest (Orientation.new s) date_time mk md
    else if f.id = 306 then
      match f.get_ascii with
      | .error e => .error e
      | .ok s => assemble rest o (some s) mk md
    else if f.id = 271 then
      match f.get_ascii with
      | .error e => .error e
      | .ok s => assemble rest o date_time (some s) md
    else if f.id = 272 then
      match f.get_ascii with
      | .error e => .error e
      | .ok s => assemble rest o date_time mk (some s)
    else assemble rest o date_time mk md

/-- The result of one iteration of the `Metadata::load` segment loop:
either loop again on the remaining stream with updated accumulators, or
finish with an outcome. -/
inductive Step where
  | next (rest : List Nat) (dims : Option (Nat × Nat)) (orient : Orientation)
      (date_time mk md : Option String)
  | done (o : Outcome)
deriving DecidableEq

/-- The `0xC0 | 0xC2` match arm of the `Metadata::load` loop: extract
dimensions from the buffered segment (`try_if_eof!` failures there are
fatal), then continue scanning. -/
def sofArm (buffer s4 : List Nat) (_dims : Option (Nat × Nat)) (orient : Orientation)
    (date_time mk md : Option String) : Step :=
  match sofDims buffer with
  | .error e => .done (.error e)
  | .ok wh => .next s4 (some wh) orient date_time mk md

/-- The `0xE1` match arm of the `Metadata::load` loop: try
`ExifSection::load` on the buffered segment — its failure is printed and
swallowed (scanning continues with the state unchanged) — but on success
the recognized-tag accessors run under `try!`, so an `assemble` failure is
returned from `Metadata::load` itself. -/
def e1Arm (buffer s4 : List Nat) (dims : Option (Nat × Nat)) (orient : Orientation)
    (date_time mk md : Option String) : Step :=
  match ExifSection.load ⟨buffer, 0⟩ with
  | .ok (exif_section, _) =>
    match assemble exif_section.zeroth_ifd orient date_time mk md with
    | .ok (o2, d2, mk2, md2) => .next s4 dims o2 d2 mk2 md2
    | .error e => .done (.error e)
  | .error _ => .next s4 dims orient date_time mk md

/-- The `0xD9` (end-of-image) match arm: leave the loop and build the
result, calling `dimensions.unwrap()` — a panic when no start-of-frame
segment was ever seen. -/
def eoiArm (dims : Option (Nat × Nat)) (orient : Orientation)
    (date_time mk md : Option String) : Step :=
  .done (match dims with
    | some wh => .ok ⟨⟨wh.1, wh.2⟩, orient, date_time, mk, md⟩
    | none => .panicked)

/-- The tail of one `Metadata::load` loop iteration, after the marker type
and its payload size are known: buffer the payload
(`take(size).read_to_end`, silently short at end of stream) and dispatch by
marker type to the arms above; any other marker's payload is skipped. -/
def markerDispatch (marker_type size : Nat) (s3 : List Nat) (dims : Option (Nat × Nat))
    (orient : Orientation) (date_time mk md : Option String) : Step :=
  let buffer := s3.take size
  let s4 := s3.drop size
  if marker_type = 0xc0 ∨ marker_type = 0xc2 then
    sofArm buffer s4 dims orient date_time mk md
  else if marker_type = 0xe1 then
    e1Arm buffer s4 dims orient date_time mk md
  else if marker_type = 0xd9 then
    eoiArm dims orient date_time mk md
  else .next s4 dims orient date_time mk md

/-- One iteration of the `Metadata::load` loop: find a `0xFF`, read the
marker type (0 is a stuffed byte: loop again), read the big-endian length
for non-restart markers (restart markers `0xD0..=0xD9` carry none and get
size 0) and subtract 2 with `u16` wrap, then hand over to
`markerDispatch`. -/
def step (stream : List Nat) (dims : Option (Nat × Nat)) (orient : Orientation)
    (date_time mk md : Option String) : Step :=
  let p := skipUntil 255 stream
  if p.1 = 0 then .done (.error (.unexpectedEof "when searching for a marker"))
  else
    match p.2 with
    | [] => .done (.error (.unexpectedEof "when reading marker type"))
    | marker_type :: s2 =>
      if marker_type = 0 then .next s2 dims orient date_time mk md
      else
        if 0xd0 ≤ marker_type ∧ marker_type ≤ 0xd9 then
          markerDispatch marker_type 0 s2 dims orient date_time mk md
        else
          match s2 with
          | b0 :: b1 :: s3 =>
            markerDispatch marker_type (payloadSize (u16val false b0 b1)) s3
              dims orient date_time mk md
          | _ => .done (.error (.unexpectedEof "when reading marker payload size"))

/-- The `Metadata::load` loop, driven by `step`.  Fuel decreases once per
iteration; every iteration consumes at least two bytes of the stream, so
the fuel `stream.length + 1` supplied by `Metadata.load` is never
exhausted (the 0-fuel branch is unreachable on those inputs). -/
def loadLoop : Nat → List Nat → Option (Nat × Nat) → Orientation →
    Option String → Option String → Option String → Outcome
  | 0, _, _, _, _, _, _ => .error (.unexpectedEof "when searching for a marker")
  | fuel + 1, stream, dims, orient, date_time, mk, md =>
    match step stream dims orient date_time mk md with
    | .done o => o
    | .next rest d2 o2 dt2 mk2 md2 => loadLoop fuel rest d2 o2 dt2 mk2 md2

/-- Model of `Metadata::load` (the `LoadableMetadata` impl) on a whole byte
stream. -/
def Metadata.load (stream : List Nat) : Outcome :=
  loadLoop (stream.length + 1) stream none .unspecified none none none


/-! ## Concrete test inputs -/

/-- The C7 test stream: start-of-image, an APP1 segment with a well-formed
little-endian Exif block whose zeroth IFD holds one Short orientation tag
(id `0x0112`) with value 6, a baseline SOF with height 50 and width 100,
end-of-image. -/
def c7stream : List Nat :=
  [255, 216] ++ [255, 225, 0, 34] ++
  [69, 120, 105, 102, 0, 0, 73, 73, 42, 0, 8, 0, 0, 0, 1, 0, 18, 1, 3, 0, 1, 0, 0, 0,
   6, 0, 0, 0, 0, 0, 0, 0] ++
  [255, 192, 0, 7, 8, 0, 50, 0, 100] ++ [255, 217]

/-- The C1 test stream: start-of-image, a baseline SOF (width 100, height
50), an APP1 segment with a well-formed Exif block whose zeroth IFD holds
one orientation tag (id `0x0112`) of datatype Long — so `get_short` on it
fails — then end-of-image. -/
def c1stream : List Nat :=
  [255, 216] ++ [255, 192, 0, 7, 8, 0, 50, 0, 100] ++ [255, 225, 0, 34] ++
  [69, 120, 105, 102, 0, 0, 73, 73, 42, 0, 8, 0, 0, 0, 1, 0, 18, 1, 4, 0, 1, 0, 0, 0,
   6, 0, 0, 0, 0, 0, 0, 0] ++ [255, 217]

/-- The C8 APP1 payload: Exif identifier, little-endian TIFF header, one
make tag (id 271, Ascii, count 5) whose 5-byte value `ACME\0` exceeds the
4-byte inline slot and lives out of line at TIFF offset 26. -/
def c8payload : List Nat :=
  [69, 120, 105, 102, 0, 0, 73, 73, 42, 0, 8, 0, 0, 0, 1, 0, 15, 1, 2, 0, 5, 0, 0, 0,
   26, 0, 0, 0, 0, 0, 0, 0, 65, 67, 77, 69, 0]

/-- The C9 IFD bytes: two Ascii count-5 directory entries — make (id 271)
and model (id 272) — both declaring out-of-line offset 38, followed by the
next-IFD offset and a single 5-byte data block. -/
def c9bytes : List Nat :=
  [2, 0, 15, 1, 2, 0, 5, 0, 0, 0, 38, 0, 0, 0, 16, 1, 2, 0, 5, 0, 0, 0, 38, 0, 0, 0,
   0, 0, 0, 0, 65, 67, 77, 69, 0]

/-- The C4 positive-gap IFD: one Ascii count-5 entry whose declared
out-of-line offset `0xC0000000` lies far above the cursor (26), so the
ideal gap is positive — but `0xC0000000 as i32` is negative. -/
def c4posGapDir : List Nat :=
  [1, 0, 15, 1, 2, 0, 5, 0, 0, 0, 0, 0, 0, 192, 0, 0, 0, 0]

/-- The C4 cursor-wrap IFD: a Rational entry with count `2^29` (declared
byte length `8 * 2^29 = 2^32`) at offset 38, followed by an Ascii count-5
entry at offset 100.  Resolving the first entry advances the declared
cursor by `2^32` (the read itself truncates to nothing), so the second
offset, 100, is far below the cursor `38 + 2^32`. -/
def c4wrapDir : List Nat :=
  [2, 0, 15, 1, 5, 0, 0, 0, 0, 32, 38, 0, 0, 0, 16, 1, 2, 0, 5, 0, 0, 0, 100, 0, 0, 0,
   0, 0, 0, 0]

/-! ## Helper lemmas -/

theorem i32ofNat_small (n : Nat) (h : n < 2147483648) : i32ofNat n = n := by
  unfold i32ofNat
  rw [Nat.mod_eq_of_lt (by omega)]
  rw [if_pos h]

theorem i32sub_small (d off : Nat) (hd : d < 2147483648) (hoff : off < 2147483648) :
    i32sub (i32ofNat d) (i32ofNat off) = (d : Int) - off := by
  rw [i32ofNat_small d hd, i32ofNat_small off hoff]
  unfold i32sub
  omega

theorem skipUntil_self (d : Nat) (l : List Nat) : skipUntil d (d :: l) = (1, l) := by
  simp [skipUntil]

theorem step_nonrestart (marker b0 b1 : Nat) (tail : List Nat) (dims : Option (Nat × Nat))
    (o : Orientation) (dt mk md : Option String) (h0 : marker ≠ 0)
    (h1 : ¬(0xd0 ≤ marker ∧ marker ≤ 0xd9)) :
    step (255 :: marker :: b0 :: b1 :: tail) dims o dt mk md =
      markerDispatch marker (payloadSize (u16val false b0 b1)) tail dims o dt mk md := by
  simp [step, skipUntil_self, h0, h1]

theorem dispatch_e1 (size : Nat) (s3 : List Nat) (dims : Option (Nat × Nat))
    (o : Orientation) (dt mk md : Option String) :
    markerDispatch 0xe1 size s3 dims o dt mk md =
      e1Arm (s3.take size) (s3.drop size) dims o dt mk md := rfl

theorem tiff_load_8 (b0 b1 m1 m2 z1 z2 z3 z4 : Nat) (rest : List Nat) :
    TiffHeader.load ⟨b0 :: b1 :: m1 :: m2 :: z1 :: z2 :: z3 :: z4 :: rest, 0⟩ =
      (match (if u16val true b0 b1 = 0x4949 then .ok ByteOrder.littleEndian
              else if u16val true b0 b1 = 0x4d4d then .ok ByteOrder.bigEndian
              else .error (Err.invalidFormat
                ("unknown byte order id: " ++ toString (u16val true b0 b1))) :
              Except Err ByteOrder) with
       | .error e => .error e
       | .ok bo =>
         if u16val bo.isLE m1 m2 = 42 then
           .ok (⟨bo, u32val bo.isLE z1 z2 z3 z4⟩,
             ⟨b0 :: b1 :: m1 :: m2 :: z1 :: z2 :: z3 :: z4 :: rest, 8⟩)
         else .error (.invalidFormat ("unknown tiff id: " ++ toString (u16val bo.isLE m1 m2)))) := rfl

theorem tiff_load_le (m1 m2 z1 z2 z3 z4 : Nat) (rest : List Nat) :
    TiffHeader.load ⟨73 :: 73 :: m1 :: m2 :: z1 :: z2 :: z3 :: z4 :: rest, 0⟩ =
      (if u16val true m1 m2 = 42 then
        .ok (⟨.littleEndian, u32val true z1 z2 z3 z4⟩,
          ⟨73 :: 73 :: m1 :: m2 :: z1 :: z2 :: z3 :: z4 :: rest, 8⟩)
       else .error (.invalidFormat ("unknown tiff id: " ++ toString (u16val true m1 m2)))) := rfl


/-! ## Claim theorems -/

/-- C1, counterexample: a typed-accessor failure on a recognized tag of the
zeroth IFD aborts the whole decode.  `c1stream` has valid dimensions, a
well-formed Exif section whose orientation tag has datatype Long, and a
proper end-of-image, yet `Metadata::load` returns the accessor's
`InvalidFormat` error instead of a metadata value. -/
theorem c1_accessor_failure_aborts_decode :
    Metadata.load c1stream = .error (.invalidFormat "tag has invalid datatype or count") := by
  decide

/-- C1, amended: a failure of `ExifSection::load` itself (identifier, TIFF
header, IFD structure) is discarded and scanning continues with the
accumulated state unchanged; but once the section loads, a typed-accessor
failure during metadata assembly is returned from the scanner itself. -/
theorem c1_exif_section_failure_discarded :
    ∀ (b0 b1 : Nat) (tail : List Nat) (dims : Option (Nat × Nat)) (o : Orientation)
      (dt mk md : Option String) (e : Err) (sec : ExifSection) (c2 : Cursor),
      (ExifSection.load ⟨tail.take (payloadSize (u16val false b0 b1)), 0⟩ = .error e →
        step (255 :: 0xe1 :: b0 :: b1 :: tail) dims o dt mk md =
          .next (tail.drop (payloadSize (u16val false b0 b1))) dims o dt mk md) ∧
      (ExifSection.load ⟨tail.take (payloadSize (u16val false b0 b1)), 0⟩ = .ok (sec, c2) →
        assemble sec.zeroth_ifd o dt mk md = .error e →
        step (255 :: 0xe1 :: b0 :: b1 :: tail) dims o dt mk md = .done (.error e)) := by
  intro b0 b1 tail dims o dt mk md e sec c2
  constructor
  · intro h
    rw [step_nonrestart 0xe1 b0 b1 tail dims o dt mk md (by decide) (by decide), dispatch_e1]
    unfold e1Arm
    rw [h]
  · intro h1 h2
    rw [step_nonrestart 0xe1 b0 b1 tail dims o dt mk md (by decide) (by decide), dispatch_e1]
    unfold e1Arm
    rw [h1]
    simp only [h2]

/-- C1, witness: a 0xE1 segment whose two-byte payload cannot be an Exif
section is skipped and scanning continues. -/
theorem c1_exif_section_failure_discarded_witness :
    step [255, 225, 0, 4, 0, 0] none .unspecified none none none =
      .next [] none .unspecified none none none :=
  ((c1_exif_section_failure_discarded 0 4 [0, 0] none .unspecified none none none
    (.unexpectedEof "while reading identifier code in exif segment") ⟨[]⟩ ⟨[], 0⟩).1
      (by decide)).trans (by decide)

/-- C2: a stream whose segment loop reaches end-of-image without any
start-of-frame marker makes `Metadata::load` call `dimensions.unwrap()` on
`None` — a panic, not a `MissingDimensions` error (no such variant exists
in the code's error type). -/
theorem c2_missing_sof_panics :
    Metadata.load [255, 216, 255, 217] = Outcome.panicked := by decide

/-- C3, counterexample: an IFD whose single out-of-line entry declares
datatype Ascii and count 5 (`unitSize * count = 5`) but whose data area
holds only 3 bytes still decodes successfully, producing an entry with raw
length 3 ≠ 5 — `take(data_len).read_to_end` truncates silently. -/
theorem c3_truncated_entry_breaks_invariant :
    Tag.load_all ⟨[1, 0, 15, 1, 2, 0, 5, 0, 0, 0, 26, 0, 0, 0, 0, 0, 0, 0, 65, 67, 77], 0⟩
        8 .littleEndian =
      .ok ([⟨271, .ascii, [65, 67, 77], .littleEndian⟩], 31,
        ⟨[1, 0, 15, 1, 2, 0, 5, 0, 0, 0, 26, 0, 0, 0, 0, 0, 0, 0, 65, 67, 77], 21⟩) ∧
    ([65, 67, 77] : List Nat).length ≠ TagDatatype.ascii.len * 5 := by decide

/-- C3, amended: the raw data of a decoded entry is the first
`unitSize * count` bytes of what remains, so its length is
`min (unitSize * count) available` — equal to `unitSize * count` exactly
when the stream supplies enough bytes, silently shorter otherwise.  Shown
on the directory family of the counterexample, parametric in the data
area. -/
theorem c3_entry_length_is_min_of_declared_and_available :
    ∀ data : List Nat,
      Tag.load_all ⟨[1, 0, 15, 1, 2, 0, 5, 0, 0, 0, 26, 0, 0, 0, 0, 0, 0, 0] ++ data, 0⟩
          8 .littleEndian =
        .ok ([⟨271, .ascii, data.take 5, .littleEndian⟩], 31,
          ⟨[1, 0, 15, 1, 2, 0, 5, 0, 0, 0, 26, 0, 0, 0, 0, 0, 0, 0] ++ data,
            18 + (data.take 5).length⟩) ∧
      (data.take 5).length = min 5 data.length := by
  intro data
  exact ⟨rfl, List.length_take 5 data⟩

/-- C4, counterexample: the gap/overrun discipline is decided on `as i32`
casts, so the unconditional claim fails on reachable inputs.  First input:
`c4posGapDir` declares offset `0xC0000000`, far above the cursor 26 —
`entryOffset - cursor` is positive, so per the claim the gap must be
skipped as padding (on this short input that skip would end in an eof
error) — yet the cast makes the offset negative and the decoder returns
`InvalidFormat("overrun")` at once.  Second input: in `c4wrapDir` the
declared length `2^32` of the first entry pushes the cursor to
`38 + 2^32`, so the next offset, 100, is smaller than the cursor — per the
claim the decode must fail with `InvalidFormat("overrun")` — yet the cast
of the cursor wraps to 38, the difference 62 is treated as a positive
padding gap, and the decode fails with an eof while skipping it (shown
both end to end through `Tag.load_all` and at the exact resolution step
with the cursor value explicit). -/
theorem c4_i32_wrap_counterexample :
    (Tag.load_all ⟨c4posGapDir, 0⟩ 8 .littleEndian =
        .error (.invalidFormat "overrun") ∧ 26 < 0xC0000000) ∧
    (Tag.load_all ⟨c4wrapDir, 0⟩ 8 .littleEndian = .error (.unexpectedEof "io") ∧
      resolveDeferred .littleEndian [(100, 272, .ascii, 5)] ⟨c4wrapDir, 30⟩
          (38 + 4294967296) [] = .error (.unexpectedEof "io") ∧
      100 < 38 + 4294967296) := by decide

/-- C4, amended: deferred entries are visited in ascending declared-offset
order (`sortByKey` output is pairwise ordered) and the cursor starts just
past the directory and its trailing next-IFD offset, as the concrete
`load_all` overrun shows (offset 10 < 8+2+12+4 = 26); gap and overrun
detection compare `as i32` casts of the declared offset and the cursor, so
whenever both are below `2^31` — i.e. whenever the casts preserve the
values — a deferred entry whose offset is smaller than the running cursor
yields `InvalidFormat("overrun")` and a positive gap is skipped as
padding, reducing to the aligned case.  Outside that range the casts wrap
and either outcome can replace the other (see the counterexample). -/
theorem c4_overrun_and_padding :
    (∀ l : List Deferred, List.Pairwise (fun a b => a.1 ≤ b.1) (sortByKey l)) ∧
    (∀ (bo : ByteOrder) (d id cnt : Nat) (dt : TagDatatype) (rest : List Deferred)
       (c : Cursor) (off : Nat) (fields : List Tag),
       d < off → off < 2147483648 →
       resolveDeferred bo ((d, id, dt, cnt) :: rest) c off fields =
         .error (.invalidFormat "overrun")) ∧
    (∀ (bo : ByteOrder) (d id cnt : Nat) (dt : TagDatatype) (rest : List Deferred)
       (c : Cursor) (off : Nat) (fields : List Tag) (skipped : List Nat) (c2 : Cursor),
       off < d → d < 2147483648 →
       c.readBytes (d - off) = some (skipped, c2) →
       resolveDeferred bo ((d, id, dt, cnt) :: rest) c off fields =
         resolveDeferred bo ((d, id, dt, cnt) :: rest) c2 d fields) ∧
    Tag.load_all ⟨[1, 0, 15, 1, 2, 0, 5, 0, 0, 0, 10, 0, 0, 0, 0, 0, 0, 0], 0⟩
        8 .littleEndian = .error (.invalidFormat "overrun") := by
  refine ⟨?_, ?_, ?_, by decide⟩
  · intro l
    haveI : IsTotal Deferred (fun a b => a.1 ≤ b.1) := ⟨fun a b => Nat.le_total a.1 b.1⟩
    haveI : IsTrans Deferred (fun a b => a.1 ≤ b.1) :=
      ⟨fun a b c hab hbc => Nat.le_trans hab hbc⟩
    exact List.sorted_insertionSort _ l
  · intro bo d id cnt dt rest c off fields hlt hoff
    simp only [resolveDeferred]
    rw [i32sub_small d off (by omega) hoff]
    rw [if_neg (by omega), if_pos (by omega)]
  · intro bo d id cnt dt rest c off fields skipped c2 hlt hd hrb
    simp only [resolveDeferred]
    rw [i32sub_small d off hd (by omega), i32sub_small d d hd hd]
    rw [if_pos (show (0 : Int) < (d : Int) - off by omega)]
    rw [show ((d : Int) - off).toNat = d - off by omega]
    rw [hrb]
    simp only [sub_self, lt_irrefl, if_false]
    rw [show off + (d - off) = d from by omega]

/-- C4, witness: the overrun branch at offset 10 against cursor 26, and a
2-byte padding gap skipped before reading at offset 20. -/
theorem c4_overrun_and_padding_witness :
    resolveDeferred .littleEndian [(10, 271, .ascii, 5)] ⟨[], 0⟩ 26 [] =
        .error (.invalidFormat "overrun") ∧
    resolveDeferred .littleEndian [(20, 271, .ascii, 5)] ⟨[0, 0, 65, 67, 77, 69, 0], 0⟩ 18 [] =
      resolveDeferred .littleEndian [(20, 271, .ascii, 5)] ⟨[0, 0, 65, 67, 77, 69, 0], 2⟩ 20 [] :=
  ⟨c4_overrun_and_padding.2.1 .littleEndian 10 271 5 .ascii [] ⟨[], 0⟩ 26 []
      (by decide) (by decide),
    c4_overrun_and_padding.2.2.1 .littleEndian 20 271 5 .ascii [] ⟨[0, 0, 65, 67, 77, 69, 0], 0⟩
      18 [] [0, 0] ⟨[0, 0, 65, 67, 77, 69, 0], 2⟩ (by decide) (by decide) (by decide)⟩

/-- C5: `0x4949` selects little-endian and `0x4D4D` big-endian; any other
order marker and any magic other than 42 is `InvalidFormat`; and the same
raw Short bytes `[1, 2]` decode to 513 under little-endian but 258 under
big-endian. -/
theorem c5_tiff_header_byte_order :
    (∀ (z1 z2 z3 z4 : Nat) (rest : List Nat),
      TiffHeader.load ⟨73 :: 73 :: 42 :: 0 :: z1 :: z2 :: z3 :: z4 :: rest, 0⟩ =
        .ok (⟨.littleEndian, u32val true z1 z2 z3 z4⟩,
          ⟨73 :: 73 :: 42 :: 0 :: z1 :: z2 :: z3 :: z4 :: rest, 8⟩)) ∧
    (∀ (z1 z2 z3 z4 : Nat) (rest : List Nat),
      TiffHeader.load ⟨77 :: 77 :: 0 :: 42 :: z1 :: z2 :: z3 :: z4 :: rest, 0⟩ =
        .ok (⟨.bigEndian, u32val false z1 z2 z3 z4⟩,
          ⟨77 :: 77 :: 0 :: 42 :: z1 :: z2 :: z3 :: z4 :: rest, 8⟩)) ∧
    (∀ (b0 b1 m1 m2 z1 z2 z3 z4 : Nat) (rest : List Nat),
      u16val true b0 b1 ≠ 0x4949 → u16val true b0 b1 ≠ 0x4d4d →
      TiffHeader.load ⟨b0 :: b1 :: m1 :: m2 :: z1 :: z2 :: z3 :: z4 :: rest, 0⟩ =
        .error (.invalidFormat ("unknown byte order id: " ++ toString (u16val true b0 b1)))) ∧
    (∀ (m1 m2 z1 z2 z3 z4 : Nat) (rest : List Nat),
      u16val true m1 m2 ≠ 42 →
      TiffHeader.load ⟨73 :: 73 :: m1 :: m2 :: z1 :: z2 :: z3 :: z4 :: rest, 0⟩ =
        .error (.invalidFormat ("unknown tiff id: " ++ toString (u16val true m1 m2)))) ∧
    ((Tag.mk 0x112 .short [1, 2] .littleEndian).get_short = .ok 513 ∧
     (Tag.mk 0x112 .short [1, 2] .bigEndian).get_short = .ok 258 ∧ (513 : Nat) ≠ 258) := by
  refine ⟨fun z1 z2 z3 z4 rest => rfl, fun z1 z2 z3 z4 rest => rfl, ?_, ?_, by decide⟩
  · intro b0 b1 m1 m2 z1 z2 z3 z4 rest h1 h2
    rw [tiff_load_8, if_neg h1, if_neg h2]
  · intro m1 m2 z1 z2 z3 z4 rest h
    rw [tiff_load_le, if_neg h]

/-- C5, witness: order marker 0 and magic 7 are rejected. -/
theorem c5_tiff_header_byte_order_witness :
    TiffHeader.load ⟨[0, 0, 0, 0, 0, 0, 0, 0], 0⟩ =
        .error (.invalidFormat "unknown byte order id: 0") ∧
    TiffHeader.load ⟨[73, 73, 7, 0, 0, 0, 0, 0], 0⟩ =
      .error (.invalidFormat "unknown tiff id: 7") :=
  ⟨(c5_tiff_header_byte_order.2.2.1 0 0 0 0 0 0 0 0 [] (by decide) (by decide)).trans
      (by decide),
    (c5_tiff_header_byte_order.2.2.2.1 7 0 0 0 0 0 [] (by decide)).trans (by decide)⟩

/-- C6: on a `0xC0`/`0xC2` segment the scanner skips the precision byte,
reads height then width as big-endian u16 and records `(width, height)`;
and the minimal stream (start-of-image, baseline SOF with width 100 and
height 50, end-of-image) decodes to dimensions (100, 50), orientation
unspecified, all optional fields absent. -/
theorem c6_sof_dimensions :
    (∀ (m p h1 h2 w1 w2 : Nat) (rest : List Nat) (dims : Option (Nat × Nat))
       (o : Orientation) (a b c : Option String), m = 0xc0 ∨ m = 0xc2 →
       step (255 :: m :: 0 :: 7 :: p :: h1 :: h2 :: w1 :: w2 :: rest) dims o a b c =
         .next rest (some (u16val false w1 w2, u16val false h1 h2)) o a b c) ∧
    Metadata.load [255, 216, 255, 192, 0, 7, 8, 0, 50, 0, 100, 255, 217] =
      Outcome.ok ⟨⟨100, 50⟩, .unspecified, none, none, none⟩ := by
  constructor
  · rintro m p h1 h2 w1 w2 rest dims o a b c (rfl | rfl)
    · exact (step_nonrestart 0xc0 0 7 (p :: h1 :: h2 :: w1 :: w2 :: rest) dims o a b c
        (by decide) (by decide)).trans rfl
    · exact (step_nonrestart 0xc2 0 7 (p :: h1 :: h2 :: w1 :: w2 :: rest) dims o a b c
        (by decide) (by decide)).trans rfl
  · decide

/-- C6, witness: a progressive (`0xC2`) start-of-frame with height 50 and
width 100 on the wire records dimensions (100, 50). -/
theorem c6_sof_dimensions_witness :
    step [255, 194, 0, 7, 8, 0, 50, 0, 100] none .unspecified none none none =
      .next [] (some (100, 50)) .unspecified none none none :=
  (c6_sof_dimensions.1 194 8 0 50 0 100 [] none .unspecified none none none
    (Or.inr rfl)).trans (by decide)

/-- C7: the orientation table maps codes 1-8 to
Normal/MirrorHorizontal/Rotate180/FlipVertical/Transpose/Rotate90/
Transverse/Rotate270, every other code to Unspecified; and a stream with a
little-endian Exif block carrying orientation 6 decodes to Rotate90. -/
theorem c7_orientation_mapping :
    (Orientation.new 1 = .normal ∧ Orientation.new 2 = .mirrorHorizontal ∧
     Orientation.new 3 = .rotate180 ∧ Orientation.new 4 = .flipVertical ∧
     Orientation.new 5 = .transpose ∧ Orientation.new 6 = .rotate90 ∧
     Orientation.new 7 = .transverse ∧ Orientation.new 8 = .rotate270) ∧
    (∀ n : Nat, ¬(1 ≤ n ∧ n ≤ 8) → Orientation.new n = .unspecified) ∧
    Metadata.load c7stream = Outcome.ok ⟨⟨100, 50⟩, .rotate90, none, none, none⟩ := by
  refine ⟨by decide, ?_, by decide⟩
  intro n h
  unfold Orientation.new
  split <;> first | rfl | omega

/-- C7, witness: orientation code 100 maps to Unspecified. -/
theorem c7_orientation_mapping_witness : Orientation.new 100 = .unspecified :=
  c7_orientation_mapping.2.1 100 (by decide)

/-- C8: `get_ascii` fails on every non-Ascii datatype, returns the empty
string on zero-length data (no underflow: `pop` is a no-op), fails
`InvalidFormat` on invalid UTF-8, and the out-of-line 5-byte make value
`ACME\0` round-trips through the full Exif section load to exactly
`"ACME"`. -/
theorem c8_get_ascii :
    (∀ t : Tag, t.datatype ≠ .ascii →
      t.get_ascii = .error (.invalidFormat "tag has invalid datatype")) ∧
    (∀ (id : Nat) (bo : ByteOrder), (Tag.mk id .ascii [] bo).get_ascii = .ok "") ∧
    (∀ (id : Nat) (bo : ByteOrder),
      (Tag.mk id .ascii [255, 0] bo).get_ascii = .error (.invalidFormat "invalid string")) ∧
    ExifSection.load ⟨c8payload, 0⟩ =
      .ok (⟨[⟨271, .ascii, [65, 67, 77, 69, 0], .littleEndian⟩]⟩, ⟨c8payload, 37⟩) ∧
    (Tag.mk 271 .ascii [65, 67, 77, 69, 0] .littleEndian).get_ascii = .ok "ACME" := by
  refine ⟨?_, ?_, ?_, by decide, by decide⟩
  · intro t h
    rcases t with ⟨id, dt, data, bo⟩
    cases dt <;> first | exact absurd rfl h | rfl
  · intro id bo
    rfl
  · intro id bo
    rfl

/-- C8, witness: `get_ascii` on a Short-datatype tag is rejected. -/
theorem c8_get_ascii_witness :
    (Tag.mk 274 .short [1, 2] .littleEndian).get_ascii =
      .error (.invalidFormat "tag has invalid datatype") :=
  c8_get_ascii.1 ⟨274, .short, [1, 2], .littleEndian⟩ (by decide)

/-- C9: a second `HashMap::insert` at the same offset replaces the first
entry, so of two out-of-line entries with the same data-area offset only
the later directory entry survives — `c9bytes` declares make (271) and
model (272) both at offset 38 and decodes to exactly one tag, the model
tag. -/
theorem c9_duplicate_offset_overwrites :
    (∀ (m : List Deferred) (k : Nat) (v1 v2 : Nat × TagDatatype × Nat),
      insertOffset (insertOffset m k v1) k v2 = insertOffset m k v2) ∧
    Tag.load_all ⟨c9bytes, 0⟩ 8 .littleEndian =
      .ok ([⟨272, .ascii, [65, 67, 77, 69, 0], .littleEndian⟩], 43, ⟨c9bytes, 35⟩) := by
  refine ⟨?_, by decide⟩
  intro m k v1 v2
  unfold insertOffset
  rw [List.filter_append]
  simp [List.filter_filter]

/-- C10: a declared wire length of 0 or 1 makes `size - 2` wrap modulo
2^16 (65534 resp. 65535) instead of being rejected as a format error; the
stream with an APP0 marker of wire length 1 then swallows the rest of the
input as payload and fails with eof while searching for the next marker,
not with `InvalidFormat`. -/
theorem c10_size_underflow_wraps :
    payloadSize 0 = 65534 ∧ payloadSize 1 = 65535 ∧
    Metadata.load [255, 224, 0, 1, 255, 217] =
      Outcome.error (.unexpectedEof "when searching for a marker") := by decide

end Immeta
